import Mathlib

/-
Verification development for the monthly-playlist synchronizer in main.py.
The Python classes Song, Playlist and MonthlyPlaylists are shallowly
embedded below.  Remote I/O (the spotipy client calls) is modelled by a
Service record of oracle functions; an Except value models a raised or
caught Python exception; a trace of Event values records the remote calls
and the diagnostic messages the code prints.
-/

namespace Spotify

/-- Timezone-naive timestamp as produced by strptime on the wire format
YYYY-MM-DDTHH:MM:SSZ.  Python datetime comparison is lexicographic on the
fields; the key encoding below realises that order for in-range fields. -/
structure DateTime where
  year : Nat
  month : Nat
  day : Nat
  hour : Nat
  minute : Nat
  second : Nat
deriving DecidableEq, Repr

/-- Numeric encoding of a DateTime realising the lexicographic comparison
that Python uses between datetime values. -/
def DateTime.key (d : DateTime) : Nat :=
  ((((d.year * 13 + d.month) * 32 + d.day) * 24 + d.hour) * 60 + d.minute) * 60 + d.second

/-- Kinds of Python exceptions relevant to the embedded code.  apiError
stands for any exception raised inside a spotipy client call. -/
inductive PyErr where
  | apiError
  | keyError
  | valueError
  | typeError
  | indexError
  | attributeError
deriving DecidableEq, Repr

/-- Raw saved-track record as returned by the service.  A field holds none
when the raw dictionary entry is missing or, for added_at, unparseable. -/
structure RawSong where
  added_at : Option DateTime
  id : Option String
  name : Option String
deriving DecidableEq, Repr

/-- Raw playlist record: the id and name fields read with dict.get. -/
structure RawPlaylist where
  id : String
  name : String
deriving DecidableEq, Repr

/-- Embeds the Song class: relevant data for a saved track. -/
structure Song where
  added_at : DateTime
  id : String
  name : String
deriving DecidableEq, Repr

/-- Embeds Song.__init__: parsing a raw record.  The added_at field is read
first (strptime raises ValueError when unparseable, modelled by none), then
the track id and name (a missing key raises KeyError). -/
def Song.ofRaw (r : RawSong) : Except PyErr Song :=
  match r.added_at with
  | none => Except.error PyErr.valueError
  | some d =>
    match r.id with
    | none => Except.error PyErr.keyError
    | some i =>
      match r.name with
      | none => Except.error PyErr.keyError
      | some n => Except.ok { added_at := d, id := i, name := n }

/-- Embeds the list comprehension building Song objects from raw items: the
first malformed record raises out of the comprehension. -/
def parseSongs : List RawSong → Except PyErr (List Song)
  | [] => Except.ok []
  | r :: rest =>
    match Song.ofRaw r with
    | Except.error e => Except.error e
    | Except.ok s =>
      match parseSongs rest with
      | Except.error e => Except.error e
      | Except.ok l => Except.ok (s :: l)

/-- Embeds the mutable part of the Playlist class: id, name and the lazily
loaded songs field, which is None until the first successful fetch. -/
structure Playlist where
  id : String
  name : String
  songs : Option (List Song)
deriving DecidableEq, Repr

/-- Embeds Playlist.__init__ on a truthy playlist dictionary. -/
def Playlist.ofRaw (r : RawPlaylist) : Playlist :=
  { id := r.id, name := r.name, songs := none }

/-- Observable events of one pass: remote API calls and the diagnostic
messages printed by update_monthly_playlists. -/
inductive Event where
  | fetchSaved (offset : Nat)
  | fetchPlaylists
  | fetchItems (pid : String)
  | create (plname : String)
  | addTrack (pid : String) (sid : String)
  | print (msg : String)
deriving DecidableEq, Repr

/-- The remote service consumed by the code, one oracle per spotipy call.
An error result models the call raising; an ok none result models a
response dictionary without an items key (or, for createPlaylist, falsy
playlist data); list entries of playlists may be falsy (none). -/
structure Service where
  savedTracks : Nat → Except PyErr (Option (List RawSong))
  playlists : Except PyErr (Option (List (Option RawPlaylist)))
  playlistItems : String → Except PyErr (Option (List RawSong))
  createPlaylist : String → Except PyErr (Option RawPlaylist)
  addItems : String → String → Except PyErr Unit

/-- Embeds the mutable fields of MonthlyPlaylists.  The nameOf field is the
stored strftime name_format already applied, mapping a timestamp to the
monthly playlist name. -/
structure EngineState where
  saved_songs : Option (List Song)
  playlists : Option (List Playlist)
  last_checked : DateTime
  nameOf : DateTime → String

/-- Embeds Playlist.__song_in: any(x.id == song.id for x in self.songs). -/
def song_in (songs : List Song) (song : Song) : Bool :=
  songs.any (fun x => x.id == song.id)

/-- Embeds Playlist.__fetch_songs.  Only the playlist_items call is inside
the try block; the Song construction that follows may raise out. -/
def Playlist.fetch_songs (svc : Service) (p : Playlist) :
    Except PyErr Bool × Playlist × List Event :=
  match svc.playlistItems p.id with
  | Except.error _ => (Except.ok false, p, [Event.fetchItems p.id])
  | Except.ok none => (Except.ok false, p, [Event.fetchItems p.id])
  | Except.ok (some raws) =>
    match parseSongs raws with
    | Except.error e => (Except.error e, p, [Event.fetchItems p.id])
    | Except.ok songs =>
      (Except.ok true, { p with songs := some songs }, [Event.fetchItems p.id])

/-- Second half of Playlist.add_song, from the membership check onwards.
The playlist_add_items call is not wrapped in a try, so its exception
propagates; the call itself is recorded even when it raises. -/
def Playlist.addSongChecked (svc : Service) (p : Playlist) (song : Song) :
    Except PyErr Unit × Playlist × List Event :=
  match p.songs with
  | none => (Except.error PyErr.typeError, p, [])
  | some l =>
    if song_in l song then (Except.ok (), p, [])
    else
      match svc.addItems p.id song.id with
      | Except.error e => (Except.error e, p, [Event.addTrack p.id song.id])
      | Except.ok _ => (Except.ok (), p, [Event.addTrack p.id song.id])

/-- Embeds Playlist.add_song.  The guard is the Python truthiness test
if not self.songs, which holds both for an unloaded songs field (None) and
for a loaded but empty one; a failed load prints and returns. -/
def Playlist.add_song (svc : Service) (p : Playlist) (song : Song) :
    Except PyErr Unit × Playlist × List Event :=
  let needFetch : Bool :=
    match p.songs with
    | none => true
    | some l => l.isEmpty
  if needFetch then
    match Playlist.fetch_songs svc p with
    | (Except.error e, p1, ev) => (Except.error e, p1, ev)
    | (Except.ok false, p1, ev) => (Except.ok (), p1, ev)
    | (Except.ok true, p1, ev) =>
      match Playlist.addSongChecked svc p1 song with
      | (r, p2, ev2) => (r, p2, ev ++ ev2)
  else Playlist.addSongChecked svc p song

/-- Embeds the for loop in MonthlyPlaylists.__add_songs_to_playlist: calls
add_song on each song in order, threading the aliased playlist object; an
exception raised by a call propagates and stops the loop. -/
def addLoop (svc : Service) : List Song → Playlist →
    Except PyErr Unit × Playlist × List Event
  | [], p => (Except.ok (), p, [])
  | s :: rest, p =>
    match Playlist.add_song svc p s with
    | (Except.error e, p1, ev) => (Except.error e, p1, ev)
    | (Except.ok _, p1, ev) =>
      match addLoop svc rest p1 with
      | (r, p2, ev2) => (r, p2, ev ++ ev2)

/-- Embeds MonthlyPlaylists.__find_playlist, returning the index of the
matching playlist in the engine list (modelling the Python object alias).
Iterating a None playlists field raises TypeError; the creation branch is
entirely inside a try, so falsy creation data (ValueError in
Playlist.__init__) is caught and None is returned. -/
def find_playlist (svc : Service) (st : EngineState) (plname : String) :
    Except PyErr (Option Nat) × EngineState × List Event :=
  match st.playlists with
  | none => (Except.error PyErr.typeError, st, [])
  | some pls =>
    match pls.findIdx? (fun x => x.name == plname) with
    | some i => (Except.ok (some i), st, [])
    | none =>
      match svc.createPlaylist plname with
      | Except.error _ => (Except.ok none, st, [Event.create plname])
      | Except.ok none => (Except.ok none, st, [Event.create plname])
      | Except.ok (some raw) =>
        (Except.ok (some pls.length),
         { st with playlists := some (pls ++ [Playlist.ofRaw raw]) },
         [Event.create plname])

/-- Embeds MonthlyPlaylists.__add_songs_to_playlist: empty input returns
False; otherwise the bucket is named from songs[0].added_at through the
stored name format, found or created, and each song is routed to it. -/
def add_songs_to_playlist (svc : Service) (st : EngineState) (songs : List Song) :
    Except PyErr Bool × EngineState × List Event :=
  match songs with
  | [] => (Except.ok false, st, [])
  | s0 :: _ =>
    match find_playlist svc st (st.nameOf s0.added_at) with
    | (Except.error e, st1, ev) => (Except.error e, st1, ev)
    | (Except.ok none, st1, ev) => (Except.ok false, st1, ev)
    | (Except.ok (some i), st1, ev) =>
      match st1.playlists with
      | none => (Except.error PyErr.typeError, st1, ev)
      | some pls =>
        match pls.get? i with
        | none => (Except.error PyErr.indexError, st1, ev)
        | some p =>
          match addLoop svc songs p with
          | (Except.error e, p1, ev2) =>
            (Except.error e, { st1 with playlists := some (pls.set i p1) }, ev ++ ev2)
          | (Except.ok _, p1, ev2) =>
            (Except.ok true, { st1 with playlists := some (pls.set i p1) }, ev ++ ev2)

/-- Embeds MonthlyPlaylists.__fetch_playlists.  The whole body sits in a
try; a raised call or a response without a truthy items list yields False,
otherwise the truthy entries are wrapped as Playlist objects. -/
def fetch_playlists (svc : Service) (st : EngineState) :
    Bool × EngineState × List Event :=
  match svc.playlists with
  | Except.error _ => (false, st, [Event.fetchPlaylists])
  | Except.ok none => (false, st, [Event.fetchPlaylists])
  | Except.ok (some items) =>
    if items.isEmpty then (false, st, [Event.fetchPlaylists])
    else
      (true,
       { st with playlists := some ((items.filterMap id).map Playlist.ofRaw) },
       [Event.fetchPlaylists])

/-- Embeds lines 152 to 155 of __fetch_saved_songs: append the page to the
cached saved songs when offset is positive (raising AttributeError when the
cache is still None), else replace the cache with the page. -/
def accumSaved (st : EngineState) (songs : List Song) (offset : Nat) :
    Except PyErr EngineState :=
  if offset > 0 then
    match st.saved_songs with
    | none => Except.error PyErr.attributeError
    | some old => Except.ok { st with saved_songs := some (old ++ songs) }
  else Except.ok { st with saved_songs := some songs }

/-- Embeds MonthlyPlaylists.__fetch_saved_songs with explicit fuel for the
unbounded recursion (a none result means the recursion is still running
after fuel nested calls).  Only the current_user_saved_tracks call is in the
try; Song construction may raise; extending a None saved_songs raises
AttributeError; indexing saved_songs[-1] on an empty list raises
IndexError; the recursive call result is ignored unless it raises. -/
def fetch_saved_songs (svc : Service) : Nat → EngineState → Nat →
    Option (Except PyErr Bool × EngineState × List Event)
  | 0, _, _ => none
  | fuel + 1, st, offset =>
    match svc.savedTracks offset with
    | Except.error _ => some (Except.ok false, st, [Event.fetchSaved offset])
    | Except.ok none => some (Except.ok false, st, [Event.fetchSaved offset])
    | Except.ok (some raws) =>
      match parseSongs raws with
      | Except.error e => some (Except.error e, st, [Event.fetchSaved offset])
      | Except.ok songs =>
        match accumSaved st songs offset with
        | Except.error e => some (Except.error e, st, [Event.fetchSaved offset])
        | Except.ok st1 =>
          match st1.saved_songs with
          | none => some (Except.error PyErr.typeError, st1, [Event.fetchSaved offset])
          | some acc =>
            match acc.getLast? with
            | none => some (Except.error PyErr.indexError, st1, [Event.fetchSaved offset])
            | some lastSong =>
              if st1.last_checked.key < lastSong.added_at.key then
                match fetch_saved_songs svc fuel st1 (offset + 50) with
                | none => none
                | some (Except.error e, st2, ev2) =>
                  some (Except.error e, st2, Event.fetchSaved offset :: ev2)
                | some (Except.ok _, st2, ev2) =>
                  some (Except.ok true, st2, Event.fetchSaved offset :: ev2)
              else some (Except.ok true, st1, [Event.fetchSaved offset])

/-- Embeds MonthlyPlaylists.__fetch_new_saved_songs: the list comprehension
filtering saved songs by added_at strictly after last_checked; iterating a
None saved_songs raises TypeError. -/
def fetch_new_saved_songs (st : EngineState) : Except PyErr (List Song) :=
  match st.saved_songs with
  | none => Except.error PyErr.typeError
  | some l =>
    Except.ok (l.filter (fun s => st.last_checked.key < s.added_at.key))

/-- Embeds update_monthly_playlists from the filtering line onwards (the
code after the saved-songs fetch, which continues even when that fetch
reported failure). -/
def updateStage2 (svc : Service) (st1 : EngineState) (ev1 : List Event) :
    Except PyErr Unit × EngineState × List Event :=
  match fetch_new_saved_songs st1 with
  | Except.error e => (Except.error e, st1, ev1)
  | Except.ok [] => (Except.ok (), st1, ev1 ++ [Event.print "No new songs"])
  | Except.ok (s0 :: rest) =>
    match fetch_playlists svc st1 with
    | (false, st2, ev2) =>
      (Except.ok (), st2, ev1 ++ ev2 ++ [Event.print "error when loading playlists"])
    | (true, st2, ev2) =>
      match add_songs_to_playlist svc st2 (s0 :: rest) with
      | (Except.error e, st3, ev3) => (Except.error e, st3, ev1 ++ ev2 ++ ev3)
      | (Except.ok false, st3, ev3) =>
        (Except.ok (), st3,
         ev1 ++ ev2 ++ ev3 ++ [Event.print "error during playlist creation/detection"])
      | (Except.ok true, st3, ev3) =>
        (Except.ok (), { st3 with last_checked := s0.added_at }, ev1 ++ ev2 ++ ev3)

/-- Embeds MonthlyPlaylists.update_monthly_playlists.  Note the code only
prints when the saved-songs fetch fails and then falls through to the
filtering step: there is no return statement in that branch. -/
def update_monthly_playlists (svc : Service) (fuel : Nat) (st : EngineState) :
    Option (Except PyErr Unit × EngineState × List Event) :=
  match fetch_saved_songs svc fuel st 0 with
  | none => none
  | some (Except.error e, st1, ev1) => some (Except.error e, st1, ev1)
  | some (Except.ok true, st1, ev1) => some (updateStage2 svc st1 ev1)
  | some (Except.ok false, st1, ev1) =>
    some (updateStage2 svc st1 (ev1 ++ [Event.print "error when loading saved songs"]))

/-- Embeds the default initialisation of last_checked in
MonthlyPlaylists.__init__: datetime.today().replace(day=1) when no date is
supplied, else the supplied date. -/
def initLastChecked (today : DateTime) (date : Option DateTime) : DateTime :=
  match date with
  | none => { today with day := 1 }
  | some d => d

/-- Modelled from the spec: the first instant of the month of the startup
date, used to compare the spec wording against the code default. -/
def firstInstantOfMonth (today : DateTime) : DateTime :=
  { today with day := 1, hour := 0, minute := 0, second := 0 }

/-! Helper observations over traces and states. -/

/-- True exactly on remote add-track mutation events. -/
def isAddEvent : Event → Bool
  | Event.addTrack _ _ => true
  | _ => false

/-- True exactly on playlist membership fetch events. -/
def isItemsFetchEvent : Event → Bool
  | Event.fetchItems _ => true
  | _ => false

/-- Number of remote add-track mutation calls in a trace. -/
def countAdd (ev : List Event) : Nat := ev.countP isAddEvent

/-- Number of playlist membership load calls in a trace. -/
def countItemsFetch (ev : List Event) : Nat := ev.countP isItemsFetchEvent

/-- Trace of two consecutive add_song calls with the same song, the second
acting on the playlist state left by the first. -/
def addTwice (svc : Service) (p : Playlist) (s : Song) : List Event :=
  match Playlist.add_song svc p s with
  | (_, p1, ev1) => ev1 ++ (Playlist.add_song svc p1 s).2.2

/-- The new-songs filter of the engine, written over an explicit list. -/
def newSongsOf (l : List Song) (w : DateTime) : List Song :=
  l.filter (fun s => w.key < s.added_at.key)

/-- A pass trace is clean when none of the three failure diagnostics of
update_monthly_playlists was printed: the pass neither lost the saved-songs
fetch nor aborted at the playlist listing or creation stage. -/
def cleanRun (ev : List Event) : Prop :=
  Event.print "error when loading saved songs" ∉ ev ∧
  Event.print "error when loading playlists" ∉ ev ∧
  Event.print "error during playlist creation/detection" ∉ ev

/-! Concrete fixtures used by witnesses and counterexamples. -/

/-- Watermark used by the concrete runs: 2024-05-01 00:00:00. -/
def w0 : DateTime := { year := 2024, month := 5, day := 1, hour := 0, minute := 0, second := 0 }

/-- A timestamp at or before the watermark. -/
def dOld : DateTime := { year := 2024, month := 4, day := 20, hour := 12, minute := 0, second := 0 }

/-- Newest timestamp after the watermark. -/
def dNew1 : DateTime := { year := 2024, month := 5, day := 10, hour := 9, minute := 0, second := 0 }

/-- Second timestamp after the watermark, older than dNew1. -/
def dNew2 : DateTime := { year := 2024, month := 5, day := 9, hour := 8, minute := 0, second := 0 }

/-- Saved track older than the watermark. -/
def sOld : Song := { added_at := dOld, id := "old", name := "Old Song" }

/-- Saved track newer than the watermark. -/
def sNew1 : Song := { added_at := dNew1, id := "new1", name := "New Song 1" }

/-- Second saved track newer than the watermark. -/
def sNew2 : Song := { added_at := dNew2, id := "new2", name := "New Song 2" }

/-- A track distinct from the above, used as preloaded playlist content. -/
def sOther : Song := { added_at := dOld, id := "other", name := "Other Song" }

/-- Raw record for sOld. -/
def rawOld : RawSong := { added_at := some dOld, id := some "old", name := some "Old Song" }

/-- Raw record for sNew1. -/
def rawNew1 : RawSong := { added_at := some dNew1, id := some "new1", name := some "New Song 1" }

/-- Raw record for sNew2. -/
def rawNew2 : RawSong := { added_at := some dNew2, id := some "new2", name := some "New Song 2" }

/-- Raw record for sOther. -/
def rawOther : RawSong := { added_at := some dOld, id := some "other", name := some "Other Song" }

/-- Benign service: empty saved pages and playlist listings, successful
creation-free responses, add calls that succeed. -/
def svcBase : Service :=
  { savedTracks := fun _ => Except.ok (some [])
    playlists := Except.ok (some [])
    playlistItems := fun _ => Except.ok (some [])
    createPlaylist := fun _ => Except.ok none
    addItems := fun _ _ => Except.ok () }

/-- Fresh engine state right after construction with watermark w0. -/
def stFresh : EngineState :=
  { saved_songs := none
    playlists := none
    last_checked := w0
    nameOf := fun _ => "May 24" }

/-- Playlist whose membership is already loaded and non-empty, not
containing the tracks sNew1 and sNew2. -/
def pLoaded : Playlist := { id := "P", name := "May 24", songs := some [sOther] }

/-- Playlist whose membership has not been loaded yet. -/
def pUnloaded : Playlist := { id := "P", name := "May 24", songs := none }

/-! Claim theorems. -/

/-- Claim C9: the computed new-songs list is exactly the fetched tracks
whose added_at is strictly greater than the watermark, and no track at or
before the watermark appears in it. -/
theorem C9_filter_correct (st : EngineState) (l : List Song)
    (h : st.saved_songs = some l) :
    fetch_new_saved_songs st = Except.ok (newSongsOf l st.last_checked) ∧
    (∀ s : Song, s ∈ newSongsOf l st.last_checked ↔
      s ∈ l ∧ st.last_checked.key < s.added_at.key) ∧
    (∀ s : Song, s ∈ newSongsOf l st.last_checked →
      ¬ s.added_at.key ≤ st.last_checked.key) := by
  refine ⟨by simp [fetch_new_saved_songs, h, newSongsOf], ?_, ?_⟩
  · intro s
    simp [newSongsOf, List.mem_filter]
  · intro s hs
    simp [newSongsOf, List.mem_filter] at hs
    exact not_le.mpr hs.2

/-- Witness for C9 on a concrete two-element saved list. -/
theorem C9_filter_correct_witness :
    fetch_new_saved_songs { stFresh with saved_songs := some [sNew1, sOld] } =
      Except.ok (newSongsOf [sNew1, sOld] w0) :=
  (C9_filter_correct { stFresh with saved_songs := some [sNew1, sOld] }
    [sNew1, sOld] rfl).1

/-- Claim C10 counterexample: starting at 2024-01-15 10:30:00, the default
watermark keeps the startup time of day, so it differs from the first
instant (midnight) of the month. -/
theorem C10_counterexample :
    initLastChecked
        { year := 2024, month := 1, day := 15, hour := 10, minute := 30, second := 0 } none ≠
      firstInstantOfMonth
        { year := 2024, month := 1, day := 15, hour := 10, minute := 30, second := 0 } := by
  decide

/-- Claim C10 amended: with no override, the initial watermark is the
startup instant with the day replaced by 1 and the time of day retained;
it equals the first instant of the month exactly when startup happens at
midnight. -/
theorem C10_amended_default (today : DateTime) :
    initLastChecked today none =
      { year := today.year, month := today.month, day := 1,
        hour := today.hour, minute := today.minute, second := today.second } ∧
    (initLastChecked today none = firstInstantOfMonth today ↔
      today.hour = 0 ∧ today.minute = 0 ∧ today.second = 0) := by
  cases today with
  | mk y mo d h mi s =>
    refine ⟨rfl, ?_⟩
    simp [initLastChecked, firstInstantOfMonth, DateTime.mk.injEq]

/-- Witness for the amended C10 at a concrete afternoon startup instant. -/
theorem C10_amended_default_witness :
    initLastChecked dOld none =
      { year := dOld.year, month := dOld.month, day := 1,
        hour := dOld.hour, minute := dOld.minute, second := dOld.second } :=
  (C10_amended_default dOld).1

/-- Claim C1 counterexample: calling add_song twice with the same track on
a bucket with loaded non-empty membership lacking that track issues two
remote add mutations, not one: the in-memory set is never updated after a
successful add. -/
theorem C1_counterexample :
    countAdd (addTwice svcBase pLoaded sNew1) = 2 ∧
    countAdd (addTwice svcBase pLoaded sNew1) ≠ 1 := by
  decide

/-- Claim C1 amended: on a bucket with loaded non-empty membership, two
add_song calls with the same track issue no mutation when the track is
already in the membership loaded from the remote service, but issue one
mutation per call (two in total) when it is not, because the track id is
not added to the in-memory set after a successful remote add. -/
theorem C1_amended_insertion (svc : Service) (p : Playlist) (s : Song) (l : List Song)
    (h1 : p.songs = some l) (h2 : l ≠ [])
    (h3 : svc.addItems p.id s.id = Except.ok ()) :
    (song_in l s = true → countAdd (addTwice svc p s) = 0) ∧
    (song_in l s = false → countAdd (addTwice svc p s) = 2) := by
  obtain ⟨a, l', rfl⟩ := List.exists_cons_of_ne_nil h2
  constructor
  · intro hs
    simp [addTwice, Playlist.add_song, Playlist.addSongChecked, h1, hs, countAdd]
  · intro hs
    simp [addTwice, Playlist.add_song, Playlist.addSongChecked, h1, hs, h3,
      countAdd, List.countP_cons, isAddEvent]

/-- Witness for the amended C1: a track already present in the loaded
membership is mutated zero times across two calls. -/
theorem C1_amended_insertion_witness :
    countAdd (addTwice svcBase pLoaded sOther) = 0 :=
  (C1_amended_insertion svcBase pLoaded sOther [sOther] rfl (by decide) rfl).1 (by decide)

/-- Claim C8 counterexample: a bucket whose loaded membership is empty is
re-fetched on every insertion call, so two calls load membership twice,
refuting the at-most-once load including the zero-track case. -/
theorem C8_counterexample :
    countItemsFetch (addLoop svcBase [sNew1, sNew1] pUnloaded).2.2 = 2 ∧
    ¬ countItemsFetch (addLoop svcBase [sNew1, sNew1] pUnloaded).2.2 ≤ 1 := by
  decide

/-- Claim C8 amended: once membership is loaded and non-empty, no sequence
of add_song calls loads it again and the loaded set is never reset: Loaded
with at least one track is terminal for the run.  A bucket whose loaded
membership is empty is indistinguishable from Unloaded to the truthiness
check and is re-fetched on every call. -/
theorem C8_amended_loaded_terminal (svc : Service) (calls : List Song)
    (p : Playlist) (l : List Song)
    (h1 : p.songs = some l) (h2 : l ≠ []) :
    countItemsFetch (addLoop svc calls p).2.2 = 0 ∧
    (addLoop svc calls p).2.1.songs = some l := by
  obtain ⟨a, l', rfl⟩ := List.exists_cons_of_ne_nil h2
  induction calls generalizing p with
  | nil => exact ⟨rfl, h1⟩
  | cons s rest ih =>
    cases hsi : song_in (a :: l') s with
    | true =>
      have hstep : Playlist.add_song svc p s = (Except.ok (), p, []) := by
        simp [Playlist.add_song, Playlist.addSongChecked, h1, hsi]
      rcases hrec : addLoop svc rest p with ⟨r, p2, ev2⟩
      have ihp := ih p h1
      rw [hrec] at ihp
      simpa [addLoop, hstep, hrec] using ihp
    | false =>
      cases hai : svc.addItems p.id s.id with
      | error e =>
        have hstep : Playlist.add_song svc p s =
            (Except.error e, p, [Event.addTrack p.id s.id]) := by
          simp [Playlist.add_song, Playlist.addSongChecked, h1, hsi, hai]
        simp [addLoop, hstep, countItemsFetch, List.countP_cons, isItemsFetchEvent, h1]
      | ok u =>
        have hstep : Playlist.add_song svc p s =
            (Except.ok (), p, [Event.addTrack p.id s.id]) := by
          simp [Playlist.add_song, Playlist.addSongChecked, h1, hsi, hai]
        rcases hrec : addLoop svc rest p with ⟨r, p2, ev2⟩
        have ihp := ih p h1
        rw [hrec] at ihp
        simp [addLoop, hstep, hrec, countItemsFetch, List.countP_cons,
          isItemsFetchEvent] at ihp ⊢
        exact ihp

/-- Witness for the amended C8: two calls on a non-empty loaded bucket load
membership zero further times. -/
theorem C8_amended_loaded_terminal_witness :
    countItemsFetch (addLoop svcBase [sNew1, sNew1] pLoaded).2.2 = 0 :=
  (C8_amended_loaded_terminal svcBase [sNew1, sNew1] pLoaded [sOther] rfl (by decide)).1

/-- Service whose saved-tracks listing raises on every call. -/
def svcRaiseSaved : Service :=
  { svcBase with savedTracks := fun _ => Except.error PyErr.apiError }

/-- Raw saved-track record with an unparseable added_at field. -/
def rawBad : RawSong := { added_at := none, id := some "x", name := some "Bad" }

/-- Service returning one malformed saved-track record. -/
def svcMalformed : Service :=
  { svcBase with savedTracks := fun _ => Except.ok (some [rawBad]) }

/-- Service with a single saved track newer than the watermark followed by
empty continuation pages. -/
def svcAllNew : Service :=
  { svcBase with savedTracks := fun off =>
      if off == 0 then Except.ok (some [rawNew1]) else Except.ok (some []) }

/-- Service returning one page whose song is at or before the watermark. -/
def svcOnePage : Service :=
  { svcBase with savedTracks := fun _ => Except.ok (some [rawOld]) }

/-- Raw record of the monthly playlist bucket. -/
def rawP : RawPlaylist := { id := "P", name := "May 24" }

/-- Service for the C3 run: three saved tracks of which two are new, one
existing bucket with unrelated content, and an add call that raises on the
second new track. -/
def svcC3 : Service :=
  { svcBase with
    savedTracks := fun _ => Except.ok (some [rawNew1, rawNew2, rawOld])
    playlists := Except.ok (some [some rawP])
    playlistItems := fun _ => Except.ok (some [rawOther])
    addItems := fun _ sid =>
      if sid == "new2" then Except.error PyErr.apiError else Except.ok () }

/-- Service whose playlist membership listing always raises while the
playlist listing itself succeeds. -/
def svcC3w : Service :=
  { svcBase with
    playlists := Except.ok (some [some rawP])
    playlistItems := fun _ => Except.error PyErr.apiError }

/-- Service with one page of saved tracks and a raising playlist listing. -/
def svcW7 : Service :=
  { svcBase with
    savedTracks := fun _ => Except.ok (some [rawNew1, rawOld])
    playlists := Except.error PyErr.apiError }

/-- Engine state after fetching the two-track page of svcW7. -/
def st1w : EngineState := { stFresh with saved_songs := some [sNew1, sOld] }

/-- Engine state after additionally loading the playlist listing. -/
def st2w : EngineState := { st1w with playlists := some [pUnloaded] }

/-- Claim C2: the code only prints a diagnostic when the first saved-tracks
page fetch fails and then falls through to the filtering step instead of
returning; on a fresh engine the filter then raises TypeError over the
still-unset saved_songs, so the pass does not abort cleanly. -/
theorem C2_missing_abort :
    update_monthly_playlists svcRaiseSaved 9 stFresh =
      some (Except.error PyErr.typeError, stFresh,
        [Event.fetchSaved 0, Event.print "error when loading saved songs"]) := by
  rfl

/-- Claim C5: with an empty saved-tracks result the fetch indexes
saved_songs[-1] on an empty list and raises IndexError; the pass never
prints No new songs and does not return successfully. -/
theorem C5_crash_on_empty :
    update_monthly_playlists svcBase 9 stFresh =
      some (Except.error PyErr.indexError, { stFresh with saved_songs := some [] },
        [Event.fetchSaved 0]) := by
  rfl

/-- Claim C4 counterexample: the pagination has no empty-page stop
condition.  With an empty library the first page raises IndexError instead
of stopping, and when the single saved track is newer than the watermark
the recursion over empty continuation pages is still running after 40
nested calls. -/
theorem C4_counterexample :
    fetch_saved_songs svcBase 9 stFresh 0 =
      some (Except.error PyErr.indexError, { stFresh with saved_songs := some [] },
        [Event.fetchSaved 0]) ∧
    (fetch_saved_songs svcAllNew 40 stFresh 0).isNone = true := by
  exact ⟨rfl, rfl⟩

/-- Claim C4 amended: the fetch stops only when a page fetch fails or when
the accumulated list ends at or before the watermark; shown here for a
first page whose last track is at or before the watermark, which ends the
recursion after exactly one page request.  There is no empty-page stop: an
empty library raises IndexError and all-new libraries recurse unboundedly. -/
theorem C4_amended_stop (svc : Service) (st : EngineState) (fuel : Nat)
    (raws : List RawSong) (songs : List Song) (slast : Song)
    (h1 : svc.savedTracks 0 = Except.ok (some raws))
    (h2 : parseSongs raws = Except.ok songs)
    (h3 : songs.getLast? = some slast)
    (h4 : slast.added_at.key ≤ st.last_checked.key) :
    fetch_saved_songs svc (fuel + 1) st 0 =
      some (Except.ok true, { st with saved_songs := some songs },
        [Event.fetchSaved 0]) := by
  simp [fetch_saved_songs, accumSaved, h1, h2, h3, not_lt.mpr h4]

/-- Witness for the amended C4: one page ending before the watermark stops
the fetch immediately. -/
theorem C4_amended_stop_witness :
    fetch_saved_songs svcOnePage 1 stFresh 0 =
      some (Except.ok true, { stFresh with saved_songs := some [sOld] },
        [Event.fetchSaved 0]) :=
  C4_amended_stop svcOnePage stFresh 0 [rawOld] [sOld] sOld rfl rfl rfl (by decide)

/-- Claim C7 counterexample: a saved-track record with an unparseable
added_at raises out of update_monthly_playlists, so a failure does
propagate to the caller as an unhandled fault. -/
theorem C7_counterexample :
    update_monthly_playlists svcMalformed 9 stFresh =
      some (Except.error PyErr.valueError, stFresh, [Event.fetchSaved 0]) := by
  rfl

/-- Claim C7 amended: locality of failure handling holds only for the
playlist-listing stage, where a raising current_user_playlists call makes
the pass return normally with the loading diagnostic and an unchanged
state.  A raising saved-tracks page fetch does not abort the pass: the
code prints its diagnostic and falls through, and on an engine whose
saved_songs cache is still None the filtering step then raises an
unhandled TypeError out of update_monthly_playlists, as do malformed raw
records, the empty-library indexing and raising add mutations. -/
theorem C7_amended_fault_handling :
    (∀ (svc : Service) (fuel : Nat) (st st1 : EngineState) (ev1 : List Event)
        (s0 : Song) (rest : List Song),
      fetch_saved_songs svc fuel st 0 = some (Except.ok true, st1, ev1) →
      fetch_new_saved_songs st1 = Except.ok (s0 :: rest) →
      svc.playlists = Except.error PyErr.apiError →
      update_monthly_playlists svc fuel st =
        some (Except.ok (), st1,
          ev1 ++ [Event.fetchPlaylists] ++
            [Event.print "error when loading playlists"])) ∧
    (∀ (svc : Service) (fuel : Nat) (st : EngineState) (e : PyErr),
      svc.savedTracks 0 = Except.error e →
      st.saved_songs = none →
      update_monthly_playlists svc (fuel + 1) st =
        some (Except.error PyErr.typeError, st,
          [Event.fetchSaved 0, Event.print "error when loading saved songs"])) := by
  constructor
  · intro svc fuel st st1 ev1 s0 rest hfetch hnew hpl
    have hfp : fetch_playlists svc st1 = (false, st1, [Event.fetchPlaylists]) := by
      simp [fetch_playlists, hpl]
    simp only [update_monthly_playlists, hfetch, updateStage2, hnew, hfp]
  · intro svc fuel st e hsv hss
    have hfs : fetch_saved_songs svc (fuel + 1) st 0 =
        some (Except.ok false, st, [Event.fetchSaved 0]) := by
      simp [fetch_saved_songs, hsv]
    simp only [update_monthly_playlists, hfs, updateStage2, fetch_new_saved_songs, hss,
      List.cons_append, List.nil_append]

/-- Witness for the amended C7: a raising playlist listing aborts the pass
with its diagnostic and no escaping exception, while a raising saved-page
fetch on a fresh engine falls through and escapes as TypeError. -/
theorem C7_amended_fault_handling_witness :
    update_monthly_playlists svcW7 1 stFresh =
      some (Except.ok (), st1w,
        [Event.fetchSaved 0] ++ [Event.fetchPlaylists] ++
          [Event.print "error when loading playlists"]) ∧
    update_monthly_playlists svcRaiseSaved 1 stFresh =
      some (Except.error PyErr.typeError, stFresh,
        [Event.fetchSaved 0, Event.print "error when loading saved songs"]) :=
  ⟨C7_amended_fault_handling.1 svcW7 1 stFresh st1w [Event.fetchSaved 0] sNew1 []
      rfl rfl rfl,
   C7_amended_fault_handling.2 svcRaiseSaved 0 stFresh PyErr.apiError rfl rfl⟩

/-- Claim C3 counterexample: in a run where the second new track raises on
the remote add call, the first track was added, but the exception escapes
and the watermark stays at its old value instead of advancing to the
newest track. -/
theorem C3_counterexample :
    (update_monthly_playlists svcC3 9 stFresh).map (fun r => r.1) =
      some (Except.error PyErr.apiError) ∧
    (update_monthly_playlists svcC3 9 stFresh).map (fun r => r.2.1.last_checked) =
      some w0 ∧
    w0 ≠ sNew1.added_at ∧
    (update_monthly_playlists svcC3 9 stFresh).map (fun r => countAdd r.2.2) =
      some 2 := by
  exact ⟨rfl, rfl, by decide, rfl⟩

/-- Claim C3 amended: per-track insertion failures that do not raise never
stop the loop: with a bucket whose membership load always fails, every
add_song call returns normally having added nothing, and once the
insertion step returns successfully the watermark is set to the added_at
of the first new track regardless of those failures.  Only a raising
remote add call aborts the pass without advancing the watermark. -/
theorem C3_amended_advance (svc : Service) (p : Playlist) (songs : List Song)
    (hload : svc.playlistItems p.id = Except.error PyErr.apiError)
    (hp : p.songs = none)
    (st1 st2 st3 : EngineState) (ev1 ev2 ev3 : List Event)
    (s0 : Song) (rest : List Song)
    (hnew : fetch_new_saved_songs st1 = Except.ok (s0 :: rest))
    (hpl : fetch_playlists svc st1 = (true, st2, ev2))
    (hadd : add_songs_to_playlist svc st2 (s0 :: rest) = (Except.ok true, st3, ev3)) :
    addLoop svc songs p =
      (Except.ok (), p, songs.map (fun _ => Event.fetchItems p.id)) ∧
    updateStage2 svc st1 ev1 =
      (Except.ok (), { st3 with last_checked := s0.added_at }, ev1 ++ ev2 ++ ev3) := by
  constructor
  · induction songs with
    | nil => rfl
    | cons s rest2 ih =>
      have hstep : Playlist.add_song svc p s =
          (Except.ok (), p, [Event.fetchItems p.id]) := by
        simp [Playlist.add_song, Playlist.fetch_songs, hp, hload]
      simp [addLoop, hstep, ih]
  · simp only [updateStage2, hnew, hpl, hadd]

/-- Witness for the amended C3: one call on an always-failing bucket load
completes the loop normally with a single membership fetch and no add. -/
theorem C3_amended_advance_witness :
    addLoop svcC3w [sNew1] pUnloaded =
      (Except.ok (), pUnloaded, [Event.fetchItems "P"]) :=
  (C3_amended_advance svcC3w pUnloaded [sNew1] rfl rfl
    st1w st2w st2w [] [Event.fetchPlaylists] [Event.fetchItems "P"] sNew1 []
    rfl rfl rfl).1

/-! State-preservation lemmas feeding the watermark invariant. -/

/-- Accumulating a fetched page never modifies the watermark. -/
theorem accumSaved_lc (st : EngineState) (songs : List Song) (offset : Nat)
    (st1 : EngineState) (h : accumSaved st songs offset = Except.ok st1) :
    st1.last_checked = st.last_checked := by
  unfold accumSaved at h
  split at h
  · split at h
    · exact absurd h (by simp)
    · simp only [Except.ok.injEq] at h
      rw [← h]
  · simp only [Except.ok.injEq] at h
    rw [← h]

/-- The saved-songs fetch never modifies the watermark. -/
theorem fetch_saved_songs_lc (svc : Service) :
    ∀ (fuel : Nat) (st : EngineState) (offset : Nat) r st1 ev,
      fetch_saved_songs svc fuel st offset = some (r, st1, ev) →
      st1.last_checked = st.last_checked := by
  intro fuel
  induction fuel with
  | zero =>
    intro st offset r st1 ev h
    simp [fetch_saved_songs] at h
  | succ n ih =>
    intro st offset r st1 ev h
    simp only [fetch_saved_songs] at h
    rcases hsv : svc.savedTracks offset with e | mraws
    · simp only [hsv, Option.some.injEq, Prod.mk.injEq] at h
      rw [← h.2.1]
    · rcases mraws with _ | raws
      · simp only [hsv, Option.some.injEq, Prod.mk.injEq] at h
        rw [← h.2.1]
      · simp only [hsv] at h
        rcases hps : parseSongs raws with e | songs
        · simp only [hps, Option.some.injEq, Prod.mk.injEq] at h
          rw [← h.2.1]
        · simp only [hps] at h
          rcases hacc : accumSaved st songs offset with e | stMid
          · simp only [hacc, Option.some.injEq, Prod.mk.injEq] at h
            rw [← h.2.1]
          · simp only [hacc] at h
            have hmid := accumSaved_lc st songs offset stMid hacc
            rcases hss : stMid.saved_songs with _ | acc
            · simp only [hss, Option.some.injEq, Prod.mk.injEq] at h
              rw [← h.2.1, hmid]
            · simp only [hss] at h
              rcases hgl : acc.getLast? with _ | lastSong
              · simp only [hgl, Option.some.injEq, Prod.mk.injEq] at h
                rw [← h.2.1, hmid]
              · simp only [hgl] at h
                by_cases hlt : stMid.last_checked.key < lastSong.added_at.key
                · simp only [if_pos hlt] at h
                  rcases hrec : fetch_saved_songs svc n stMid (offset + 50) with _ | res
                  · rw [hrec] at h
                    exact Option.noConfusion h
                  · rcases res with ⟨r2, st2, ev2⟩
                    have hrc := ih stMid (offset + 50) r2 st2 ev2 hrec
                    rcases r2 with e2 | b2
                    · simp only [hrec, Option.some.injEq, Prod.mk.injEq] at h
                      rw [← h.2.1, hrc, hmid]
                    · simp only [hrec, Option.some.injEq, Prod.mk.injEq] at h
                      rw [← h.2.1, hrc, hmid]
                · simp only [if_neg hlt, Option.some.injEq, Prod.mk.injEq] at h
                  rw [← h.2.1, hmid]

/-- The playlist-listing fetch modifies neither the watermark nor the
cached saved songs. -/
theorem fetch_playlists_state (svc : Service) (st : EngineState) :
    (fetch_playlists svc st).2.1.last_checked = st.last_checked ∧
    (fetch_playlists svc st).2.1.saved_songs = st.saved_songs := by
  unfold fetch_playlists
  split
  · exact ⟨rfl, rfl⟩
  · exact ⟨rfl, rfl⟩
  · split
    · exact ⟨rfl, rfl⟩
    · exact ⟨rfl, rfl⟩

/-- Finding or creating a bucket modifies neither the watermark nor the
cached saved songs. -/
theorem find_playlist_state (svc : Service) (st : EngineState) (plname : String) :
    (find_playlist svc st plname).2.1.last_checked = st.last_checked ∧
    (find_playlist svc st plname).2.1.saved_songs = st.saved_songs := by
  unfold find_playlist
  split
  · exact ⟨rfl, rfl⟩
  · split
    · exact ⟨rfl, rfl⟩
    · split
      · exact ⟨rfl, rfl⟩
      · exact ⟨rfl, rfl⟩
      · exact ⟨rfl, rfl⟩

/-- The insertion step modifies neither the watermark nor the cached saved
songs. -/
theorem add_songs_to_playlist_state (svc : Service) (st : EngineState)
    (songs : List Song) :
    (add_songs_to_playlist svc st songs).2.1.last_checked = st.last_checked ∧
    (add_songs_to_playlist svc st songs).2.1.saved_songs = st.saved_songs := by
  unfold add_songs_to_playlist
  split
  · exact ⟨rfl, rfl⟩
  · rename_i s0 rest
    split
    · rename_i st1 ev heq
      have hp := find_playlist_state svc st (st.nameOf s0.added_at)
      rw [heq] at hp
      exact hp
    · rename_i st1 ev heq
      have hp := find_playlist_state svc st (st.nameOf s0.added_at)
      rw [heq] at hp
      exact hp
    · rename_i i st1 ev heq
      have hp := find_playlist_state svc st (st.nameOf s0.added_at)
      rw [heq] at hp
      split
      · exact hp
      · split
        · exact hp
        · split <;> exact hp

/-- Every trace produced by the post-fetch stage extends the trace it was
handed: the incoming events form an initial segment of the outgoing ones. -/
theorem updateStage2_events_shape (svc : Service) (st1 : EngineState)
    (ev1 : List Event) :
    ∃ tail, (updateStage2 svc st1 ev1).2.2 = ev1 ++ tail := by
  unfold updateStage2
  split
  · exact ⟨[], by simp⟩
  · exact ⟨[Event.print "No new songs"], rfl⟩
  · split
    · rename_i st2 ev2 heq
      exact ⟨ev2 ++ [Event.print "error when loading playlists"], by simp⟩
    · rename_i st2 ev2 heq
      split
      · rename_i e st3 ev3 heq2
        exact ⟨ev2 ++ ev3, by simp⟩
      · rename_i st3 ev3 heq2
        exact ⟨ev2 ++ (ev3 ++ [Event.print "error during playlist creation/detection"]), by simp⟩
      · rename_i st3 ev3 heq2
        exact ⟨ev2 ++ ev3, by simp⟩

/-- Claim C6: for every pass that returns successfully, without any of the
failure diagnostics in its trace, the watermark never moves backwards: it
is unchanged when the new-songs filter over the fetched list is empty, and
otherwise, when the remote service returned the saved tracks newest first
(the fetched list is sorted descending by added_at), it becomes the
added_at of the first filtered track, strictly after the old watermark and
maximal among the filtered tracks. -/
theorem C6_watermark_monotonic (svc : Service) (fuel : Nat)
    (st st1f : EngineState) (ev : List Event) (l : List Song)
    (h : update_monthly_playlists svc fuel st = some (Except.ok (), st1f, ev))
    (hclean : cleanRun ev)
    (hl : st1f.saved_songs = some l)
    (hsorted : List.Sorted (fun a b : Song => b.added_at.key ≤ a.added_at.key) l) :
    st.last_checked.key ≤ st1f.last_checked.key ∧
    (newSongsOf l st.last_checked = [] → st1f.last_checked = st.last_checked) ∧
    (∀ s0 rest, newSongsOf l st.last_checked = s0 :: rest →
      st1f.last_checked = s0.added_at ∧
      st.last_checked.key < s0.added_at.key ∧
      ∀ s ∈ newSongsOf l st.last_checked, s.added_at.key ≤ s0.added_at.key) := by
  simp only [update_monthly_playlists] at h
  rcases hfs : fetch_saved_songs svc fuel st 0 with _ | ⟨r, st1, ev1⟩
  · rw [hfs] at h
    exact Option.noConfusion h
  · rw [hfs] at h
    have hlc1 : st1.last_checked = st.last_checked :=
      fetch_saved_songs_lc svc fuel st 0 r st1 ev1 hfs
    rcases r with e | b
    · simp at h
    · cases b with
      | false =>
        obtain ⟨tail, htail⟩ := updateStage2_events_shape svc st1
          (ev1 ++ [Event.print "error when loading saved songs"])
        simp only [Option.some.injEq] at h
        rw [h] at htail
        exfalso
        apply hclean.1
        rw [show ev = (Except.ok (), st1f, ev).2.2 from rfl, htail]
        simp
      | true =>
        simp only [Option.some.injEq] at h
        rcases hn : fetch_new_saved_songs st1 with e | ns
        · simp only [updateStage2, hn] at h
          simp at h
        · rcases ns with _ | ⟨s0, rest⟩
          · simp only [updateStage2, hn, Prod.mk.injEq] at h
            obtain ⟨-, hst, hev⟩ := h
            have hsv1 : st1.saved_songs = some l := by rw [hst, hl]
            have hfil : newSongsOf l st.last_checked = [] := by
              unfold fetch_new_saved_songs at hn
              rw [hsv1] at hn
              simp only [Except.ok.injEq] at hn
              rw [newSongsOf, ← hlc1]
              exact hn
            refine ⟨?_, fun _ => by rw [← hst, hlc1], ?_⟩
            · rw [← hst, hlc1]
            · intro s0 rest heq
              rw [hfil] at heq
              exact absurd heq (by simp)
          · rcases hp2 : fetch_playlists svc st1 with ⟨b2, st2, ev2⟩
            simp only [updateStage2, hn, hp2] at h
            have hfp := fetch_playlists_state svc st1
            rw [hp2] at hfp
            cases b2 with
            | false =>
              simp only [Prod.mk.injEq] at h
              obtain ⟨-, -, hev⟩ := h
              exfalso
              apply hclean.2.1
              rw [← hev]
              simp
            | true =>
              rcases ha : add_songs_to_playlist svc st2 (s0 :: rest) with ⟨ra, st3, ev3⟩
              simp only [ha] at h
              have hap := add_songs_to_playlist_state svc st2 (s0 :: rest)
              rw [ha] at hap
              rcases ra with e | b3
              · simp at h
              · cases b3 with
                | false =>
                  simp only [Prod.mk.injEq] at h
                  obtain ⟨-, -, hev⟩ := h
                  exfalso
                  apply hclean.2.2
                  rw [← hev]
                  simp
                | true =>
                  simp only [Prod.mk.injEq] at h
                  obtain ⟨-, hst, hev⟩ := h
                  have hsv3 : st3.saved_songs = some l := by
                    rw [← hst] at hl
                    exact hl
                  have hsv1 : st1.saved_songs = some l := by
                    rw [← hfp.2, ← hap.2]
                    exact hsv3
                  have hfil : newSongsOf l st.last_checked = s0 :: rest := by
                    unfold fetch_new_saved_songs at hn
                    rw [hsv1] at hn
                    simp only [Except.ok.injEq] at hn
                    rw [newSongsOf, ← hlc1]
                    exact hn
                  have hs0mem : s0 ∈ newSongsOf l st.last_checked := by
                    rw [hfil]
                    exact List.mem_cons_self _ _
                  have hs0lt : st.last_checked.key < s0.added_at.key := by
                    have hm := List.mem_filter.mp (by rw [newSongsOf] at hs0mem; exact hs0mem)
                    simpa using hm.2
                  have hmax : ∀ s ∈ newSongsOf l st.last_checked,
                      s.added_at.key ≤ s0.added_at.key := by
                    have hs := hsorted.filter
                      (fun s => decide (st.last_checked.key < s.added_at.key))
                    rw [show List.filter
                        (fun s => decide (st.last_checked.key < s.added_at.key)) l =
                      newSongsOf l st.last_checked from rfl, hfil] at hs
                    intro s hsmem
                    rw [hfil] at hsmem
                    rcases List.mem_cons.mp hsmem with heqs | htl
                    · rw [heqs]
                    · exact (List.sorted_cons.mp hs).1 s htl
                  refine ⟨?_, ?_, ?_⟩
                  · rw [← hst]
                    exact le_of_lt hs0lt
                  · intro hfe
                    rw [hfil] at hfe
                    exact absurd hfe (by simp)
                  · intro s0' rest' heq'
                    rw [hfil] at heq'
                    injection heq' with h1 h2
                    rw [← h1]
                    exact ⟨by rw [← hst], hs0lt, hmax⟩

/-- Engine state after fetching the single old-track page of svcOnePage. -/
def stOnePage : EngineState := { stFresh with saved_songs := some [sOld] }

/-- Witness for C6: a concrete clean nothing-to-do pass keeps the watermark
at least where it was. -/
theorem C6_watermark_monotonic_witness :
    stFresh.last_checked.key ≤ stOnePage.last_checked.key :=
  (C6_watermark_monotonic svcOnePage 2 stFresh stOnePage
    [Event.fetchSaved 0, Event.print "No new songs"] [sOld]
    rfl (by unfold cleanRun; decide) rfl (by simp)).1

end Spotify
